import Mathlib

/-!
Verification of the restaurant-finder pipeline (`src/main.py`).

The Python program is shallowly embedded: dictionaries become a `Place`
structure with `Option` fields for keys that may be absent (Python
`dict.get` with a default becomes `Option.getD`), Python floats are
modelled by exact rationals/reals, `math.log10` by `Real.logb 10`, and
Python's stable `sorted` by `List.insertionSort` (which Mathlib proves
stable).  Side effects (prints, sleeps, HTTP requests) are recorded in an
explicit event trace.
-/

namespace RestaurantFinder

/-- A raw place record as returned by the remote API.  Fields that the
source reads with `dict.get` and a default are `Option`s, so that a missing
JSON key is distinguishable from a present one (the source uses different
defaults for the same key in different places). -/
structure Place where
  name : Option String
  types : List String
  rating : Option ℚ
  user_ratings_total : Option ℤ
  vicinity : Option String
deriving DecidableEq

/-- `RESTAURANT_TYPES` from the source: strict restaurant types to include. -/
def RESTAURANT_TYPES : List String :=
  ["restaurant", "meal_delivery", "meal_takeaway"]

/-- `EXCLUDE_TYPES` from the source: types to explicitly exclude. -/
def EXCLUDE_TYPES : List String :=
  ["lodging", "hotel", "motel", "gas_station", "grocery_or_supermarket",
   "convenience_store"]

/-- Does `needle` occur at the head of `hay`?  (Helper for Python's
substring test `needle in hay`.) -/
def leadMatch : List Char → List Char → Bool
  | _, [] => true
  | [], _ :: _ => false
  | c :: cs, d :: ds => c == d && leadMatch cs ds

/-- Does `needle` occur contiguously anywhere in `hay`?  (Python's
`needle in hay` on strings.) -/
def charsContain (needle : List Char) : List Char → Bool
  | [] => leadMatch [] needle
  | c :: t => leadMatch (c :: t) needle || charsContain needle t

/-- Python's substring containment `needle in hay`. -/
def strContains (hay needle : String) : Bool :=
  charsContain needle.toList hay.toList

/-- Python's `str.lower()` (character-wise lowering). -/
def strLower (s : String) : String :=
  ⟨s.toList.map Char.toLower⟩

/-- The fixed keyword list from `is_true_restaurant`. -/
def restaurant_keywords : List String :=
  ["restaurant", "grill", "kitchen", "bistro", "cafe",
   "diner", "eatery", "steakhouse", "pizzeria", "sushi"]

/-- `is_true_restaurant` from the source: deny-list check, then allow-list
check, then case-insensitive keyword fallback on the name
(`place.get("name", "")`). -/
def is_true_restaurant (place : Place) : Bool :=
  if place.types.any (fun t => EXCLUDE_TYPES.contains t) then
    false
  else if place.types.any (fun t => RESTAURANT_TYPES.contains t) then
    true
  else
    let name_lower := strLower (place.name.getD "")
    restaurant_keywords.any (fun kw => strContains name_lower kw)

/-- `calculate_score` from the source:
`rating = restaurant.get("rating", 0)`,
`reviews = restaurant.get("user_ratings_total", 1)`,
result `rating ** 2 * math.log10(max(reviews, 1))`. -/
noncomputable def calculate_score (restaurant : Place) : ℝ :=
  let rating : ℚ := restaurant.rating.getD 0
  let reviews : ℤ := restaurant.user_ratings_total.getD 1
  (rating : ℝ) ^ 2 * Real.logb 10 ((max reviews 1 : ℤ) : ℝ)

/-- The ordering used by `sorted(filtered, key=calculate_score,
reverse=True)`: `a` may precede `b` exactly when its score is at least
`b`'s score. -/
noncomputable def score_order (a b : Place) : Prop :=
  calculate_score b ≤ calculate_score a

noncomputable instance score_order.decRel : DecidableRel score_order :=
  fun _ _ => Classical.propDecidable _

instance score_order.isTotal : IsTotal Place score_order :=
  ⟨fun a b => le_total (calculate_score b) (calculate_score a)⟩

instance score_order.isTrans : IsTrans Place score_order :=
  ⟨fun _ _ _ hab hbc => le_trans hbc hab⟩

/-- The filter predicate of `filter_and_rank_restaurants`:
`r.get("rating", 0) >= min_rating and r.get("user_ratings_total", 0) >=
min_reviews` (note the `0` default for the review count here, unlike
scoring). -/
def passes_filters (min_rating : ℚ) (min_reviews : ℤ) (r : Place) : Bool :=
  decide (r.rating.getD 0 ≥ min_rating) &&
    decide (r.user_ratings_total.getD 0 ≥ min_reviews)

/-- `filter_and_rank_restaurants` from the source.  Python's `sorted` is a
stable sort; with `reverse=True` it keeps equal-key elements in their
original relative order while sorting keys descending, which is exactly
`List.insertionSort score_order`. -/
noncomputable def filter_and_rank_restaurants (restaurants : List Place)
    (min_rating : ℚ) (min_reviews : ℤ) : List Place :=
  let filtered := restaurants.filter (passes_filters min_rating min_reviews)
  List.insertionSort score_order filtered

/-! ### Geocoder (`get_location`) -/

/-- Python `str.split(sep)` for a one-character separator, over character
lists (so `"".split(sep) = [""]`). -/
def splitChars (sep : Char) : List Char → List (List Char)
  | [] => [[]]
  | c :: cs =>
    if c == sep then [] :: splitChars sep cs
    else
      match splitChars sep cs with
      | [] => [[c]]
      | h :: t => (c :: h) :: t

/-- Python `str.strip()`: drop whitespace from both ends. -/
def trimChars (cs : List Char) : List Char :=
  ((cs.dropWhile Char.isWhitespace).reverse.dropWhile Char.isWhitespace).reverse

/-- Value of a digit string (most significant first). -/
def digitsVal (cs : List Char) : ℕ :=
  cs.foldl (fun a c => 10 * a + (c.toNat - 48)) 0

/-- Python's builtin `float(s)` (a language builtin, modelled like
`math.log10` below), restricted to plain signed decimal notation
`[+|-]digits[.digits]`; `none` where `float` raises `ValueError`. -/
def parseDecimal (cs : List Char) : Option ℚ :=
  let signBody : Bool × List Char :=
    match cs with
    | '-' :: rest => (true, rest)
    | '+' :: rest => (false, rest)
    | _ => (false, cs)
  let applySign : ℚ → ℚ := fun v => if signBody.1 then -v else v
  match splitChars '.' signBody.2 with
  | [ip] =>
      if ip ≠ [] ∧ ip.all Char.isDigit then some (applySign (digitsVal ip))
      else none
  | [ip, fp] =>
      if (ip ≠ [] ∨ fp ≠ []) ∧ ip.all Char.isDigit ∧ fp.all Char.isDigit then
        some (applySign (digitsVal ip + digitsVal fp / 10 ^ fp.length))
      else none
  | _ => none

/-- Why a coordinate string is rejected; the source distinguishes these
cases only by the message printed before `sys.exit(1)`. -/
inductive CoordIssue where
  | badFormat
  | notNumeric
  | outOfRange
deriving DecidableEq

/-- An error exit of `get_location` (a `print` followed by `sys.exit(1)`).
`unknownCity` carries the sorted list of known city names printed as
diagnostic. -/
inductive GeoError where
  | invalidCoords (issue : CoordIssue)
  | unknownCity (city : String) (available : List String)
deriving DecidableEq

/-- The display label of a resolved location (the numeric formatting of
the coordinate label is not modelled, only the values it shows). -/
inductive LocLabel where
  | coordsLabel (lat lng : ℚ)
  | cityLabel (city : String)
  | seattleDefault
deriving DecidableEq

/-- `CITY_COORDINATES` from the source, as exact rationals, in the literal
order of the Python dict (its iteration order). -/
def CITY_COORDINATES : List (String × ℚ × ℚ) :=
  [("seattle", (476062/10000, -1223321/10000)),
   ("san francisco", (377749/10000, -1224194/10000)),
   ("los angeles", (340522/10000, -1182437/10000)),
   ("new york", (407128/10000, -740060/10000)),
   ("chicago", (418781/10000, -876298/10000)),
   ("austin", (302672/10000, -977431/10000)),
   ("portland", (455152/10000, -1226784/10000)),
   ("miami", (257617/10000, -801918/10000)),
   ("boston", (423601/10000, -710589/10000)),
   ("denver", (397392/10000, -1049903/10000)),
   ("atlanta", (337490/10000, -843880/10000)),
   ("dallas", (327767/10000, -967970/10000)),
   ("houston", (297604/10000, -953698/10000)),
   ("philadelphia", (399526/10000, -751652/10000)),
   ("phoenix", (334484/10000, -1120740/10000)),
   ("san diego", (327157/10000, -1171611/10000)),
   ("washington dc", (389072/10000, -770369/10000)),
   ("las vegas", (361699/10000, -1151398/10000)),
   ("nashville", (361627/10000, -867816/10000)),
   ("new orleans", (299511/10000, -900715/10000))]

/-- `CITY_COORDINATES.keys()` in dict order. -/
def city_names : List String := CITY_COORDINATES.map Prod.fst

/-- Lexicographic comparison of character lists by code point: Python's
`<=` on strings. -/
def charsLe : List Char → List Char → Bool
  | [], _ => true
  | _ :: _, [] => false
  | a :: as, b :: bs => if a == b then charsLe as bs else decide (a.toNat < b.toNat)

/-- Python's `<=` on strings. -/
def strLe (a b : String) : Prop :=
  charsLe a.toList b.toList = true

instance strLe.decRel : DecidableRel strLe :=
  fun _ _ => instDecidableEqBool _ _

/-- `sorted(CITY_COORDINATES.keys())` from the source (Python sorts
strings lexicographically by code point). -/
def available_cities : List String :=
  List.insertionSort strLe city_names

instance {ε α : Type} [DecidableEq ε] [DecidableEq α] :
    DecidableEq (Except ε α)
  | .ok a, .ok b =>
      if h : a = b then isTrue (by rw [h]) else isFalse (by simp [h])
  | .error a, .error b =>
      if h : a = b then isTrue (by rw [h]) else isFalse (by simp [h])
  | .ok _, .error _ => isFalse (by simp)
  | .error _, .ok _ => isFalse (by simp)

/-- Python truthiness of an optional string argument: `None` and `""` are
falsy. -/
def strTruthy (s : Option String) : Bool :=
  s.getD "" != ""

/-- `get_location` from the source.  The `try`/`except ValueError` around
coordinate parsing (covering the explicit `raise`s and `float` failures)
becomes the error cases of `parseDecimal` and the explicit checks. -/
def get_location (city coords : Option String) :
    Except GeoError (ℚ × ℚ × LocLabel) :=
  if strTruthy coords then
    match splitChars ',' (coords.getD "").toList with
    | [p1, p2] =>
        match parseDecimal (trimChars p1), parseDecimal (trimChars p2) with
        | some lat, some lng =>
            if (-90 ≤ lat ∧ lat ≤ 90) ∧ (-180 ≤ lng ∧ lng ≤ 180) then
              .ok (lat, lng, .coordsLabel lat lng)
            else .error (.invalidCoords .outOfRange)
        | _, _ => .error (.invalidCoords .notNumeric)
    | _ => .error (.invalidCoords .badFormat)
  else if strTruthy city then
    let cityStr := city.getD ""
    match CITY_COORDINATES.lookup (strLower cityStr) with
    | none => .error (.unknownCity cityStr available_cities)
    | some p => .ok (p.1, p.2, .cityLabel cityStr)
  else
    let p := (CITY_COORDINATES.lookup "seattle").getD (0, 0)
    .ok (p.1, p.2, .seattleDefault)

/-! ### Paginator/Fetcher (`fetch_all_restaurants`) -/

/-- Python `int(x)` on a number: truncation toward zero. -/
def ratTrunc (q : ℚ) : ℤ :=
  if 0 ≤ q then ⌊q⌋ else ⌈q⌉

/-- `miles_to_meters` from the source: `int(miles * 1609.34)`. -/
def miles_to_meters (miles : ℚ) : ℤ :=
  ratTrunc (miles * (160934 / 100))

/-- The parsed JSON body of one page response. -/
structure ApiData where
  status : String
  results : List Place
  next_page_token : Option String
  error_message : Option String
deriving DecidableEq

/-- A page fetch outcome supplied by the environment: a transport failure
(`requests.RequestException`, covering timeouts and `raise_for_status`)
or a parsed body. -/
inductive FetchOutcome where
  | fail (msg : String)
  | ok (data : ApiData)
deriving DecidableEq

/-- One page request's query parameters.  The constant `key`/`type`/
`keyword` entries present in every request are omitted. -/
structure RequestParams where
  location : Option (ℚ × ℚ)
  radius : Option ℤ
  pagetoken : Option String
deriving DecidableEq

/-- Observable events of one run of `fetch_all_restaurants` (prints,
sleeps, HTTP requests), in program order.  `delay u page` is the
`time.sleep(u)` done in the loop iteration that then requests `page`
(0-based). -/
inductive FetchEvent where
  | clampNote
  | delay (units : ℕ) (page : ℕ)
  | request (page : ℕ) (params : RequestParams)
  | warnFail (msg : String)
  | warnStatus (status : String) (detail : Option String)
deriving DecidableEq

/-- `data.get("status") in ["OK", "ZERO_RESULTS"]`. -/
def goodStatus (d : ApiData) : Prop :=
  d.status = "OK" ∨ d.status = "ZERO_RESULTS"

instance (d : ApiData) : Decidable (goodStatus d) := by
  unfold goodStatus; infer_instance

/-- The detail message printed with a status warning:
`if data.get("error_message"):` (Python truthiness, so `None` and `""`
print nothing). -/
def statusDetail (d : ApiData) : Option String :=
  if d.error_message.getD "" ≠ "" then some (d.error_message.getD "") else none

/-- The query parameters of the request for page `page_count`: page 1
sends location and radius, later pages send only the continuation token. -/
def requestParamsFor (lat lng : ℚ) (radius_meters : ℤ) (page_count : ℕ)
    (token : Option String) : RequestParams :=
  if page_count == 0 then ⟨some (lat, lng), some radius_meters, none⟩
  else ⟨none, none, token⟩

/-- The events of the start of one loop iteration: pages after the first
print-and-sleep before requesting. -/
def preEvents (lat lng : ℚ) (radius_meters : ℤ) (page_count : ℕ)
    (token : Option String) : List FetchEvent :=
  if page_count == 0 then
    [.request page_count (requestParamsFor lat lng radius_meters page_count token)]
  else
    [.delay 2 page_count,
     .request page_count (requestParamsFor lat lng radius_meters page_count token)]

/-- The body of the `while page_count < 3` loop of
`fetch_all_restaurants`.  `fuel` is the number of iterations the guard
still allows (`3 - page_count`, so the guard `page_count < 3` is exactly
`fuel > 0`); `token` is the current `next_page_token`; `acc` is
`all_restaurants`.  The loop stops at `if not next_page_token: break`,
Python truthiness, so a missing and an empty token both stop it.
Returns the final list and the events of the remaining iterations. -/
def fetch_go (api : ℕ → FetchOutcome) (lat lng : ℚ) (radius_meters : ℤ) :
    ℕ → ℕ → Option String → List Place → List Place × List FetchEvent
  | 0, _, _, acc => (acc, [])
  | fuel + 1, page_count, token, acc =>
    let pre := preEvents lat lng radius_meters page_count token
    match api page_count with
    | .fail msg => (acc, pre ++ [.warnFail msg])
    | .ok data =>
      if goodStatus data then
        let acc2 := acc ++ data.results.filter is_true_restaurant
        if strTruthy data.next_page_token then
          let rest :=
            fetch_go api lat lng radius_meters fuel (page_count + 1)
              data.next_page_token acc2
          (rest.1, pre ++ rest.2)
        else (acc2, pre)
      else
        (acc, pre ++ [.warnStatus data.status (statusDetail data)])

/-- `fetch_all_restaurants` from the source: radius conversion, the
50000-meter clamp with its printed note, then the fetch loop started at
`page_count = 0` with three allowed iterations. -/
def fetch_all_restaurants (lat lng : ℚ) (radius_miles : ℚ)
    (api : ℕ → FetchOutcome) : List Place × List FetchEvent :=
  let radius_meters := miles_to_meters radius_miles
  let clamped : ℤ × List FetchEvent :=
    if radius_meters > 50000 then (50000, [.clampNote]) else (radius_meters, [])
  let r := fetch_go api lat lng clamped.1 3 0 none []
  (r.1, clamped.2 ++ r.2)

/-- Is an event a page request? -/
def isRequestEvent : FetchEvent → Bool
  | .request _ _ => true
  | _ => false

/-- Is an event a delay? -/
def isDelayEvent : FetchEvent → Bool
  | .delay _ _ => true
  | _ => false

/-- Is an event a request for a page after the first (pages 2 and 3,
1-based)? -/
def isLaterRequestEvent : FetchEvent → Bool
  | .request p _ => decide (1 ≤ p)
  | _ => false

/-- A page outcome lets the loop continue: the transport succeeded, the
status is `OK`/`ZERO_RESULTS`, and a continuation token is present and
truthy (Python `if not next_page_token: break`, so a present-but-empty
token stops the loop too). -/
def continues (o : FetchOutcome) : Prop :=
  ∃ d, o = .ok d ∧ goodStatus d ∧ strTruthy d.next_page_token = true

/-- The classifier-passing items a page outcome contributes to
`all_restaurants` (none on transport failure or bad status). -/
def pageYield (o : FetchOutcome) : List Place :=
  match o with
  | .fail _ => []
  | .ok d => if goodStatus d then d.results.filter is_true_restaurant else []

/-- The warning printed for a failed page outcome, if any: transport
failures print the exception message, bad statuses print the status and —
when truthy — the `error_message` detail. -/
def failWarn (o : FetchOutcome) : Option FetchEvent :=
  match o with
  | .fail msg => some (.warnFail msg)
  | .ok d => if goodStatus d then none else some (.warnStatus d.status (statusDetail d))

/-! ### Presenter (`display_results`) -/

/-- One printed line of `display_results`, carrying the dynamic values it
interpolates (numeric string formatting such as `:.1f` and thousands
grouping is not modelled, only the values shown). -/
inductive DisplayLine where
  | headerLocation (location_name : String)
  | headerRadius (radius_miles : ℚ)
  | headerFilters (min_rating : ℚ) (min_reviews : ℤ)
  | headerCounts (fetched : ℕ) (matched : ℕ)
  | separator
  | noResults
  | tryAdjusting
  | suggestReviews (n : ℤ)
  | suggestRating (q : ℚ)
  | suggestRadius (q : ℚ)
  | topHeader (n : ℕ)
  | entryName (idx : ℕ) (name : String)
  | entryStats (rating : ℚ) (reviews : ℤ)
  | entryTypes (types : List String)
  | entryLocation (address : String)
  | blank
deriving DecidableEq

/-- The lines printed for one ranked entry (1-based index `idx`). -/
def entry_lines (show_types : Bool) (idx : ℕ) (r : Place) : List DisplayLine :=
  let name := r.name.getD "Unknown"
  let rating := r.rating.getD 0
  let review_count := r.user_ratings_total.getD 0
  let address := r.vicinity.getD "Address not available"
  let typeLines : List DisplayLine :=
    if show_types then
      let relevant_types :=
        r.types.filter
          (fun t => !(["point_of_interest", "establishment", "food"].contains t))
      if relevant_types ≠ [] then [.entryTypes (relevant_types.take 3)] else []
    else []
  let address2 := if address.length > 60 then address.take 57 ++ "..." else address
  [.entryName idx name, .entryStats rating review_count] ++ typeLines ++
    [.entryLocation address2, .blank]

/-- `display_results` from the source, as the list of printed lines.
`max_display` models the module global `MAX_DISPLAY` (set to `--limit` by
`main`).  Python `//` is floor division, hence `Int.fdiv`. -/
def display_results (restaurants : List Place) (location_name : String)
    (radius_miles : ℚ) (min_rating : ℚ) (min_reviews : ℤ)
    (total_fetched : ℕ) (show_types : Bool) (max_display : ℕ) :
    List DisplayLine :=
  let header : List DisplayLine :=
    [.headerLocation location_name, .headerRadius radius_miles,
     .headerFilters min_rating min_reviews,
     .headerCounts total_fetched restaurants.length, .separator]
  if restaurants.isEmpty then
    header ++
      [.noResults, .tryAdjusting,
       .suggestReviews (Int.fdiv min_reviews 2),
       .suggestRating (max (min_rating - 2/10) 3),
       .suggestRadius (min (radius_miles + 10) 31)]
  else
    header ++ [.topHeader (min restaurants.length max_display)] ++
      ((restaurants.take max_display).enumFrom 1).flatMap
        (fun p => entry_lines show_types p.1 p.2)

/-! ## Theorems -/

/-- C1: the composite score equals `rating² * log10(max(review_count, 1))`
with a missing rating read as 0 and a missing review count read as 1; an
item rated 4.8 with 1000 reviews scores exactly 69.12. -/
theorem calculate_score_spec :
    (∀ r : Place, calculate_score r =
        ((r.rating.getD 0 : ℚ) : ℝ) ^ 2 *
          Real.logb 10 ((max (r.user_ratings_total.getD 1) 1 : ℤ) : ℝ))
    ∧ calculate_score
        { name := some "Cafe Heaven", types := [], rating := some (4.8 : ℚ),
          user_ratings_total := some 1000, vicinity := none } = 69.12 := by
  constructor
  · intro r; rfl
  · show ((4.8 : ℚ) : ℝ) ^ 2 * Real.logb 10 ((max (1000 : ℤ) 1 : ℤ) : ℝ) = 69.12
    rw [show ((max (1000 : ℤ) 1 : ℤ) : ℝ) = 1000 by norm_num]
    rw [show (1000 : ℝ) = 10 ^ (3 : ℕ) by norm_num, Real.logb_pow,
      Real.logb_self_eq_one (by norm_num)]
    norm_num

/-- C2: `filter_and_rank_restaurants` returns a permutation of exactly the
input items passing both thresholds (missing rating and review count read
as 0 here), sorted by descending composite score, and two kept items of
equal score keep their original relative order. -/
theorem filter_and_rank_spec (restaurants : List Place) (min_rating : ℚ)
    (min_reviews : ℤ) :
    List.Perm (filter_and_rank_restaurants restaurants min_rating min_reviews)
      (restaurants.filter (fun r =>
        decide (r.rating.getD 0 ≥ min_rating) &&
          decide (r.user_ratings_total.getD 0 ≥ min_reviews)))
    ∧ List.Sorted (fun a b => calculate_score b ≤ calculate_score a)
        (filter_and_rank_restaurants restaurants min_rating min_reviews)
    ∧ ∀ a b : Place, calculate_score a = calculate_score b →
        List.Sublist [a, b]
          (restaurants.filter (fun r =>
            decide (r.rating.getD 0 ≥ min_rating) &&
              decide (r.user_ratings_total.getD 0 ≥ min_reviews))) →
        List.Sublist [a, b]
          (filter_and_rank_restaurants restaurants min_rating min_reviews) := by
  refine ⟨?_, ?_, ?_⟩
  · exact List.perm_insertionSort score_order _
  · exact List.sorted_insertionSort score_order _
  · intro a b hs hsub
    exact List.pair_sublist_insertionSort hs.ge hsub

/-- Witness for C2 at a concrete input: two equal-scored items that pass
the thresholds stay in their input order in the ranked output. -/
theorem filter_and_rank_spec_witness :
    List.Sublist
      [(⟨some "A", [], some 4, some 10, none⟩ : Place),
       (⟨some "B", [], some 4, some 10, none⟩ : Place)]
      (filter_and_rank_restaurants
        [⟨some "A", [], some 4, some 10, none⟩,
         ⟨some "B", [], some 4, some 10, none⟩] 0 0) := by
  refine (filter_and_rank_spec
    [⟨some "A", [], some 4, some 10, none⟩,
     ⟨some "B", [], some 4, some 10, none⟩] 0 0).2.2 _ _ rfl ?_
  decide

/-- C3: the classifier is pure; deny tags always lose, otherwise allow
tags win, otherwise the lowered name is searched for one of the ten
keywords. -/
theorem is_true_restaurant_spec (p : Place) :
    ((∃ t ∈ p.types, t ∈ EXCLUDE_TYPES) → is_true_restaurant p = false)
    ∧ ((∀ t ∈ p.types, t ∉ EXCLUDE_TYPES) → (∃ t ∈ p.types, t ∈ RESTAURANT_TYPES) →
        is_true_restaurant p = true)
    ∧ ((∀ t ∈ p.types, t ∉ EXCLUDE_TYPES) → (∀ t ∈ p.types, t ∉ RESTAURANT_TYPES) →
        (is_true_restaurant p = true ↔
          ∃ kw ∈ restaurant_keywords,
            strContains (strLower (p.name.getD "")) kw = true)) := by
  refine ⟨?_, ?_, ?_⟩
  · intro ⟨t, ht, hex⟩
    simp only [is_true_restaurant, if_pos, List.any_eq_true]
    rw [if_pos ⟨t, ht, by simpa using hex⟩]
  · intro hnoex ⟨t, ht, hres⟩
    have hex : ¬∃ x ∈ p.types, EXCLUDE_TYPES.contains x = true := by
      rintro ⟨u, hu, hexu⟩
      exact hnoex u hu (by simpa using hexu)
    simp only [is_true_restaurant, List.any_eq_true]
    rw [if_neg hex, if_pos ⟨t, ht, by simpa using hres⟩]
  · intro hnoex hnores
    have hex : ¬∃ x ∈ p.types, EXCLUDE_TYPES.contains x = true := by
      rintro ⟨u, hu, hexu⟩
      exact hnoex u hu (by simpa using hexu)
    have hres : ¬∃ x ∈ p.types, RESTAURANT_TYPES.contains x = true := by
      rintro ⟨u, hu, hresu⟩
      exact hnores u hu (by simpa using hresu)
    simp only [is_true_restaurant, List.any_eq_true]
    rw [if_neg hex, if_neg hres]
    exact List.any_eq_true

/-- Witness for C3 at concrete inputs: an item tagged both `lodging` and
`restaurant` is excluded. -/
theorem is_true_restaurant_spec_witness :
    is_true_restaurant ⟨some "Grand Hotel Restaurant",
      ["lodging", "restaurant"], none, none, none⟩ = false :=
  (is_true_restaurant_spec _).1 ⟨"lodging", by decide, by decide⟩

/-- C10: an item whose review count is missing or at most 1 scores 0;
in the ranked output every such item sits strictly after every item with
positive rating and at least two reviews, and equal-scored zero-review
items keep their input order. -/
theorem zero_review_items_spec (restaurants : List Place) (min_rating : ℚ)
    (min_reviews : ℤ) :
    (∀ r : Place, r.user_ratings_total.getD 1 ≤ 1 → calculate_score r = 0)
    ∧ (∀ i j : Fin (filter_and_rank_restaurants restaurants min_rating
          min_reviews).length,
        ((filter_and_rank_restaurants restaurants min_rating
            min_reviews).get i).user_ratings_total.getD 1 ≤ 1 →
        0 < ((filter_and_rank_restaurants restaurants min_rating
            min_reviews).get j).rating.getD 0 →
        2 ≤ ((filter_and_rank_restaurants restaurants min_rating
            min_reviews).get j).user_ratings_total.getD 1 →
        j < i)
    ∧ ∀ a b : Place, a.user_ratings_total.getD 1 ≤ 1 →
        b.user_ratings_total.getD 1 ≤ 1 →
        List.Sublist [a, b]
          (restaurants.filter (passes_filters min_rating min_reviews)) →
        List.Sublist [a, b]
          (filter_and_rank_restaurants restaurants min_rating min_reviews) := by
  have score_zero : ∀ r : Place, r.user_ratings_total.getD 1 ≤ 1 →
      calculate_score r = 0 := by
    intro r h
    show ((r.rating.getD 0 : ℚ) : ℝ) ^ 2 *
      Real.logb 10 ((max (r.user_ratings_total.getD 1) 1 : ℤ) : ℝ) = 0
    rw [max_eq_right h]
    simp
  have score_pos : ∀ r : Place, 0 < r.rating.getD 0 →
      2 ≤ r.user_ratings_total.getD 1 → 0 < calculate_score r := by
    intro r hrat hrev
    show 0 < ((r.rating.getD 0 : ℚ) : ℝ) ^ 2 *
      Real.logb 10 ((max (r.user_ratings_total.getD 1) 1 : ℤ) : ℝ)
    apply mul_pos
    · exact pow_pos (by exact_mod_cast hrat) 2
    · apply Real.logb_pos (by norm_num)
      rw [max_eq_left (le_trans (by norm_num) hrev)]
      exact_mod_cast lt_of_lt_of_le (by norm_num) hrev
  refine ⟨score_zero, ?_, ?_⟩
  · intro i j hi hratj hrevj
    rcases lt_trichotomy j i with h | h | h
    · exact h
    · exfalso
      rw [h] at hratj hrevj
      have h1 := score_zero _ hi
      have h2 := score_pos _ hratj hrevj
      rw [h1] at h2
      exact lt_irrefl 0 h2
    · exfalso
      have hsorted := List.sorted_insertionSort score_order
        (restaurants.filter (passes_filters min_rating min_reviews))
      have hrel : score_order ((filter_and_rank_restaurants restaurants
          min_rating min_reviews).get i)
          ((filter_and_rank_restaurants restaurants min_rating
            min_reviews).get j) :=
        List.Sorted.rel_get_of_lt hsorted h
      have h1 := score_zero _ hi
      have h2 := score_pos _ hratj hrevj
      rw [score_order, h1] at hrel
      exact absurd (lt_of_lt_of_le h2 hrel) (lt_irrefl 0)
  · intro a b ha hb hsub
    exact List.pair_sublist_insertionSort
      (by rw [score_order, score_zero a ha, score_zero b hb]) hsub

/-- Witness for C10 at a concrete input: two zero-review items keep their
input order, after an item with positive score. -/
theorem zero_review_items_spec_witness :
    List.Sublist
      [(⟨some "A", [], some 5, some 1, none⟩ : Place),
       (⟨some "B", [], some 5, none, none⟩ : Place)]
      (filter_and_rank_restaurants
        [⟨some "A", [], some 5, some 1, none⟩,
         ⟨some "B", [], some 5, none, none⟩] 0 0) := by
  refine (zero_review_items_spec
    [⟨some "A", [], some 5, some 1, none⟩,
     ⟨some "B", [], some 5, none, none⟩] 0 0).2.2 _ _ (by decide) (by decide) ?_
  decide

/-! ### Fetch loop lemmas -/

theorem fetch_go_fail {api : ℕ → FetchOutcome} {lat lng : ℚ} {rm : ℤ}
    {fuel pc : ℕ} {token : Option String} {acc : List Place} {msg : String}
    (h : api pc = .fail msg) :
    fetch_go api lat lng rm (fuel + 1) pc token acc =
      (acc, preEvents lat lng rm pc token ++ [.warnFail msg]) := by
  simp only [fetch_go, h]

theorem fetch_go_badStatus {api : ℕ → FetchOutcome} {lat lng : ℚ} {rm : ℤ}
    {fuel pc : ℕ} {token : Option String} {acc : List Place} {d : ApiData}
    (h : api pc = .ok d) (hg : ¬ goodStatus d) :
    fetch_go api lat lng rm (fuel + 1) pc token acc =
      (acc, preEvents lat lng rm pc token ++
        [.warnStatus d.status (statusDetail d)]) := by
  simp only [fetch_go, h, if_neg hg]

theorem fetch_go_stop {api : ℕ → FetchOutcome} {lat lng : ℚ} {rm : ℤ}
    {fuel pc : ℕ} {token : Option String} {acc : List Place} {d : ApiData}
    (h : api pc = .ok d) (hg : goodStatus d)
    (ht : ¬ strTruthy d.next_page_token = true) :
    fetch_go api lat lng rm (fuel + 1) pc token acc =
      (acc ++ d.results.filter is_true_restaurant,
        preEvents lat lng rm pc token) := by
  simp only [fetch_go, h, if_pos hg, if_neg ht]

theorem fetch_go_continue {api : ℕ → FetchOutcome} {lat lng : ℚ} {rm : ℤ}
    {fuel pc : ℕ} {token : Option String} {acc : List Place} {d : ApiData}
    (h : api pc = .ok d) (hg : goodStatus d)
    (ht : strTruthy d.next_page_token = true) :
    fetch_go api lat lng rm (fuel + 1) pc token acc =
      ((fetch_go api lat lng rm fuel (pc + 1) d.next_page_token
          (acc ++ d.results.filter is_true_restaurant)).1,
        preEvents lat lng rm pc token ++
          (fetch_go api lat lng rm fuel (pc + 1) d.next_page_token
            (acc ++ d.results.filter is_true_restaurant)).2) := by
  simp only [fetch_go, h, if_pos hg, if_pos ht]

theorem preEvents_countP_request (lat lng : ℚ) (rm : ℤ) (pc : ℕ)
    (token : Option String) :
    (preEvents lat lng rm pc token).countP isRequestEvent = 1 := by
  by_cases h : pc = 0 <;>
    simp [preEvents, h, isRequestEvent, isDelayEvent, List.countP_cons]

theorem preEvents_count_delay_later (lat lng : ℚ) (rm : ℤ) (pc : ℕ)
    (token : Option String) :
    (preEvents lat lng rm pc token).countP isDelayEvent =
      (preEvents lat lng rm pc token).countP isLaterRequestEvent := by
  by_cases h : pc = 0 <;>
    simp [preEvents, h, isDelayEvent, isLaterRequestEvent, List.countP_cons,
      Nat.one_le_iff_ne_zero]

theorem mem_preEvents_delay {lat lng : ℚ} {rm : ℤ} {pc : ℕ}
    {token : Option String} {u p : ℕ}
    (h : FetchEvent.delay u p ∈ preEvents lat lng rm pc token) :
    u = 2 ∧ p = pc ∧ 1 ≤ pc := by
  by_cases h0 : pc = 0
  · simp [preEvents, h0] at h
  · simp [preEvents, h0] at h
    exact ⟨h.1, h.2, Nat.one_le_iff_ne_zero.mpr h0⟩

theorem mem_preEvents_request {lat lng : ℚ} {rm : ℤ} {pc : ℕ}
    {token : Option String} {p : ℕ} {ps : RequestParams}
    (h : FetchEvent.request p ps ∈ preEvents lat lng rm pc token) :
    p = pc ∧ ps = requestParamsFor lat lng rm pc token := by
  by_cases h0 : pc = 0
  · subst h0
    simp [preEvents] at h
    exact ⟨h.1, h.2⟩
  · simp [preEvents, h0] at h
    exact ⟨h.1, h.2⟩

theorem clampNote_not_mem_preEvents {lat lng : ℚ} {rm : ℤ} {pc : ℕ}
    {token : Option String} :
    FetchEvent.clampNote ∉ preEvents lat lng rm pc token := by
  by_cases h0 : pc = 0 <;> simp [preEvents, h0]

theorem request_mem_preEvents (lat lng : ℚ) (rm : ℤ) (pc : ℕ)
    (token : Option String) :
    FetchEvent.request pc (requestParamsFor lat lng rm pc token) ∈
      preEvents lat lng rm pc token := by
  by_cases h0 : pc = 0 <;> simp [preEvents, h0]

theorem fetch_go_countP_request_le (api : ℕ → FetchOutcome) (lat lng : ℚ)
    (rm : ℤ) :
    ∀ fuel pc token acc,
      (fetch_go api lat lng rm fuel pc token acc).2.countP isRequestEvent ≤
        fuel := by
  intro fuel
  induction fuel with
  | zero => intro pc token acc; simp [fetch_go]
  | succ fuel ih =>
    intro pc token acc
    rcases hapi : api pc with msg | d
    · rw [fetch_go_fail hapi]
      simp [List.countP_append, preEvents_countP_request, List.countP_cons,
        isRequestEvent]
    · by_cases hg : goodStatus d
      · by_cases ht : strTruthy d.next_page_token = true
        · rw [fetch_go_continue hapi hg ht]
          have := ih (pc + 1) d.next_page_token
            (acc ++ d.results.filter is_true_restaurant)
          simp only [List.countP_append, preEvents_countP_request]
          omega
        · rw [fetch_go_stop hapi hg ht]
          simp [preEvents_countP_request]
      · rw [fetch_go_badStatus hapi hg]
        simp [List.countP_append, preEvents_countP_request, List.countP_cons,
          isRequestEvent]

theorem fetch_go_mem_delay (api : ℕ → FetchOutcome) (lat lng : ℚ) (rm : ℤ) :
    ∀ fuel pc token acc u p,
      FetchEvent.delay u p ∈ (fetch_go api lat lng rm fuel pc token acc).2 →
      u = 2 ∧ 1 ≤ p ∧ p < pc + fuel := by
  intro fuel
  induction fuel with
  | zero => intro pc token acc u p h; simp [fetch_go] at h
  | succ fuel ih =>
    intro pc token acc u p h
    rcases hapi : api pc with msg | d
    · rw [fetch_go_fail hapi] at h
      rcases List.mem_append.mp h with h | h
      · obtain ⟨hu, hp, h1⟩ := mem_preEvents_delay h
        omega
      · simp at h
    · by_cases hg : goodStatus d
      · by_cases ht : strTruthy d.next_page_token = true
        · rw [fetch_go_continue hapi hg ht] at h
          rcases List.mem_append.mp h with h | h
          · obtain ⟨hu, hp, h1⟩ := mem_preEvents_delay h
            omega
          · obtain ⟨hu, hp, h1⟩ := ih (pc + 1) d.next_page_token
              (acc ++ d.results.filter is_true_restaurant) u p h
            omega
        · rw [fetch_go_stop hapi hg ht] at h
          obtain ⟨hu, hp, h1⟩ := mem_preEvents_delay h
          omega
      · rw [fetch_go_badStatus hapi hg] at h
        rcases List.mem_append.mp h with h | h
        · obtain ⟨hu, hp, h1⟩ := mem_preEvents_delay h
          omega
        · simp at h

theorem fetch_go_count_delay_later (api : ℕ → FetchOutcome) (lat lng : ℚ)
    (rm : ℤ) :
    ∀ fuel pc token acc,
      (fetch_go api lat lng rm fuel pc token acc).2.countP isDelayEvent =
        (fetch_go api lat lng rm fuel pc token acc).2.countP
          isLaterRequestEvent := by
  intro fuel
  induction fuel with
  | zero => intro pc token acc; simp [fetch_go]
  | succ fuel ih =>
    intro pc token acc
    rcases hapi : api pc with msg | d
    · rw [fetch_go_fail hapi]
      simp [List.countP_append, preEvents_count_delay_later, List.countP_cons,
        isDelayEvent, isLaterRequestEvent]
    · by_cases hg : goodStatus d
      · by_cases ht : strTruthy d.next_page_token = true
        · rw [fetch_go_continue hapi hg ht]
          simp only [List.countP_append, preEvents_count_delay_later,
            ih (pc + 1) d.next_page_token
              (acc ++ d.results.filter is_true_restaurant)]
        · rw [fetch_go_stop hapi hg ht]
          simp [preEvents_count_delay_later]
      · rw [fetch_go_badStatus hapi hg]
        simp [List.countP_append, preEvents_count_delay_later, List.countP_cons,
          isDelayEvent, isLaterRequestEvent]

theorem fetch_go_mem_request (api : ℕ → FetchOutcome) (lat lng : ℚ) (rm : ℤ) :
    ∀ fuel pc token acc p ps,
      FetchEvent.request p ps ∈ (fetch_go api lat lng rm fuel pc token acc).2 →
      pc ≤ p ∧ p < pc + fuel := by
  intro fuel
  induction fuel with
  | zero => intro pc token acc p ps h; simp [fetch_go] at h
  | succ fuel ih =>
    intro pc token acc p ps h
    rcases hapi : api pc with msg | d
    · rw [fetch_go_fail hapi] at h
      rcases List.mem_append.mp h with h | h
      · obtain ⟨hp, _⟩ := mem_preEvents_request h
        omega
      · simp at h
    · by_cases hg : goodStatus d
      · by_cases ht : strTruthy d.next_page_token = true
        · rw [fetch_go_continue hapi hg ht] at h
          rcases List.mem_append.mp h with h | h
          · obtain ⟨hp, _⟩ := mem_preEvents_request h
            omega
          · obtain ⟨hp, hb⟩ := ih (pc + 1) d.next_page_token
              (acc ++ d.results.filter is_true_restaurant) p ps h
            omega
        · rw [fetch_go_stop hapi hg ht] at h
          obtain ⟨hp, _⟩ := mem_preEvents_request h
          omega
      · rw [fetch_go_badStatus hapi hg] at h
        rcases List.mem_append.mp h with h | h
        · obtain ⟨hp, _⟩ := mem_preEvents_request h
          omega
        · simp at h

theorem fetch_go_request_zero_radius (api : ℕ → FetchOutcome) (lat lng : ℚ)
    (rm : ℤ) :
    ∀ fuel pc token acc ps,
      FetchEvent.request 0 ps ∈ (fetch_go api lat lng rm fuel pc token acc).2 →
      ps.radius = some rm := by
  intro fuel
  induction fuel with
  | zero => intro pc token acc ps h; simp [fetch_go] at h
  | succ fuel ih =>
    intro pc token acc ps h
    have inPre : ∀ {tk : Option String},
        FetchEvent.request 0 ps ∈ preEvents lat lng rm pc tk →
        ps.radius = some rm := by
      intro tk hm
      obtain ⟨hp, hps⟩ := mem_preEvents_request hm
      rw [hps, requestParamsFor, if_pos (by simp [hp.symm])]
    rcases hapi : api pc with msg | d
    · rw [fetch_go_fail hapi] at h
      rcases List.mem_append.mp h with h | h
      · exact inPre h
      · simp at h
    · by_cases hg : goodStatus d
      · by_cases ht : strTruthy d.next_page_token = true
        · rw [fetch_go_continue hapi hg ht] at h
          rcases List.mem_append.mp h with h | h
          · exact inPre h
          · exact ih (pc + 1) d.next_page_token
              (acc ++ d.results.filter is_true_restaurant) ps h
        · rw [fetch_go_stop hapi hg ht] at h
          exact inPre h
      · rw [fetch_go_badStatus hapi hg] at h
        rcases List.mem_append.mp h with h | h
        · exact inPre h
        · simp at h

theorem fetch_go_later_radius_none (api : ℕ → FetchOutcome) (lat lng : ℚ)
    (rm : ℤ) :
    ∀ fuel pc token acc p ps,
      FetchEvent.request p ps ∈ (fetch_go api lat lng rm fuel pc token acc).2 →
      1 ≤ p → ps.radius = none := by
  intro fuel
  induction fuel with
  | zero => intro pc token acc p ps h; simp [fetch_go] at h
  | succ fuel ih =>
    intro pc token acc p ps h hp1
    have inPre : ∀ {tk : Option String},
        FetchEvent.request p ps ∈ preEvents lat lng rm pc tk →
        ps.radius = none := by
      intro tk hm
      obtain ⟨hp, hps⟩ := mem_preEvents_request hm
      have : pc ≠ 0 := by omega
      rw [hps, requestParamsFor, if_neg (by simp [this])]
    rcases hapi : api pc with msg | d
    · rw [fetch_go_fail hapi] at h
      rcases List.mem_append.mp h with h | h
      · exact inPre h
      · simp at h
    · by_cases hg : goodStatus d
      · by_cases ht : strTruthy d.next_page_token = true
        · rw [fetch_go_continue hapi hg ht] at h
          rcases List.mem_append.mp h with h | h
          · exact inPre h
          · exact ih (pc + 1) d.next_page_token
              (acc ++ d.results.filter is_true_restaurant) p ps h hp1
        · rw [fetch_go_stop hapi hg ht] at h
          exact inPre h
      · rw [fetch_go_badStatus hapi hg] at h
        rcases List.mem_append.mp h with h | h
        · exact inPre h
        · simp at h

theorem fetch_go_request_succ_continues (api : ℕ → FetchOutcome) (lat lng : ℚ)
    (rm : ℤ) :
    ∀ fuel pc token acc p ps,
      FetchEvent.request (p + 1) ps ∈
        (fetch_go api lat lng rm fuel pc token acc).2 →
      p + 1 = pc ∨ continues (api p) := by
  intro fuel
  induction fuel with
  | zero => intro pc token acc p ps h; simp [fetch_go] at h
  | succ fuel ih =>
    intro pc token acc p ps h
    rcases hapi : api pc with msg | d
    · rw [fetch_go_fail hapi] at h
      rcases List.mem_append.mp h with h | h
      · exact Or.inl (mem_preEvents_request h).1
      · simp at h
    · by_cases hg : goodStatus d
      · by_cases ht : strTruthy d.next_page_token = true
        · rw [fetch_go_continue hapi hg ht] at h
          rcases List.mem_append.mp h with h | h
          · exact Or.inl (mem_preEvents_request h).1
          · rcases ih (pc + 1) d.next_page_token
              (acc ++ d.results.filter is_true_restaurant) p ps h with heq | hc
            · rcases Nat.succ_injective heq with rfl
              exact Or.inr ⟨d, hapi, hg, ht⟩
            · exact Or.inr hc
        · rw [fetch_go_stop hapi hg ht] at h
          exact Or.inl (mem_preEvents_request h).1
      · rw [fetch_go_badStatus hapi hg] at h
        rcases List.mem_append.mp h with h | h
        · exact Or.inl (mem_preEvents_request h).1
        · simp at h

theorem fetch_go_clampNote_not_mem (api : ℕ → FetchOutcome) (lat lng : ℚ)
    (rm : ℤ) :
    ∀ fuel pc token acc,
      FetchEvent.clampNote ∉ (fetch_go api lat lng rm fuel pc token acc).2 := by
  intro fuel
  induction fuel with
  | zero => intro pc token acc; simp [fetch_go]
  | succ fuel ih =>
    intro pc token acc h
    rcases hapi : api pc with msg | d
    · rw [fetch_go_fail hapi] at h
      rcases List.mem_append.mp h with h | h
      · exact clampNote_not_mem_preEvents h
      · simp at h
    · by_cases hg : goodStatus d
      · by_cases ht : strTruthy d.next_page_token = true
        · rw [fetch_go_continue hapi hg ht] at h
          rcases List.mem_append.mp h with h | h
          · exact clampNote_not_mem_preEvents h
          · exact ih (pc + 1) d.next_page_token
              (acc ++ d.results.filter is_true_restaurant) h
        · rw [fetch_go_stop hapi hg ht] at h
          exact clampNote_not_mem_preEvents h
      · rw [fetch_go_badStatus hapi hg] at h
        rcases List.mem_append.mp h with h | h
        · exact clampNote_not_mem_preEvents h
        · simp at h

theorem fetch_go_head_request (api : ℕ → FetchOutcome) (lat lng : ℚ) (rm : ℤ)
    (fuel pc : ℕ) (token : Option String) (acc : List Place) (h : 0 < fuel) :
    FetchEvent.request pc (requestParamsFor lat lng rm pc token) ∈
      (fetch_go api lat lng rm fuel pc token acc).2 := by
  rcases fuel with _ | fuel
  · omega
  rcases hapi : api pc with msg | d
  · rw [fetch_go_fail hapi]
    exact List.mem_append_left _ (request_mem_preEvents lat lng rm pc token)
  · by_cases hg : goodStatus d
    · by_cases ht : strTruthy d.next_page_token = true
      · rw [fetch_go_continue hapi hg ht]
        exact List.mem_append_left _ (request_mem_preEvents lat lng rm pc token)
      · rw [fetch_go_stop hapi hg ht]
        exact request_mem_preEvents lat lng rm pc token
    · rw [fetch_go_badStatus hapi hg]
      exact List.mem_append_left _ (request_mem_preEvents lat lng rm pc token)

theorem fetch_all_clamped {lat lng radius_miles : ℚ} {api : ℕ → FetchOutcome}
    (h : 50000 < miles_to_meters radius_miles) :
    fetch_all_restaurants lat lng radius_miles api =
      ((fetch_go api lat lng 50000 3 0 none []).1,
        FetchEvent.clampNote :: (fetch_go api lat lng 50000 3 0 none []).2) := by
  simp only [fetch_all_restaurants, if_pos h]
  rfl

theorem fetch_all_unclamped {lat lng radius_miles : ℚ} {api : ℕ → FetchOutcome}
    (h : ¬ 50000 < miles_to_meters radius_miles) :
    fetch_all_restaurants lat lng radius_miles api =
      ((fetch_go api lat lng (miles_to_meters radius_miles) 3 0 none []).1,
        (fetch_go api lat lng (miles_to_meters radius_miles) 3 0 none []).2) := by
  simp only [fetch_all_restaurants, if_neg h, List.nil_append]

theorem fetch_go_fail_step (api : ℕ → FetchOutcome) (lat lng : ℚ) (rm : ℤ)
    (fuel pc : ℕ) (token : Option String) (acc : List Place)
    (hfail : failWarn (api pc) ≠ none) :
    (fetch_go api lat lng rm (fuel + 1) pc token acc).1 = acc
    ∧ ∀ w, failWarn (api pc) = some w →
        w ∈ (fetch_go api lat lng rm (fuel + 1) pc token acc).2 := by
  rcases hapi : api pc with msg | d
  · rw [fetch_go_fail hapi]
    refine ⟨rfl, ?_⟩
    intro w hw
    simp only [failWarn, Option.some.injEq] at hw
    subst hw
    simp
  · by_cases hg : goodStatus d
    · rw [hapi] at hfail
      simp [failWarn, if_pos hg] at hfail
    · rw [fetch_go_badStatus hapi hg]
      refine ⟨rfl, ?_⟩
      intro w hw
      simp only [failWarn, if_neg hg, Option.some.injEq] at hw
      subst hw
      simp

/-- C4: at most 3 page requests per run; the fixed 2-unit delay occurs
exactly in the iterations requesting pages 2 and 3 (0-based pages 1 and
2); and a request for page `p + 1` is only issued when the response for
page `p` succeeded with a good status and carried a continuation token
(so the loop stops as soon as a response has no token). -/
theorem pagination_spec (lat lng radius_miles : ℚ) (api : ℕ → FetchOutcome) :
    (fetch_all_restaurants lat lng radius_miles api).2.countP isRequestEvent ≤ 3
    ∧ (∀ u p, FetchEvent.delay u p ∈
          (fetch_all_restaurants lat lng radius_miles api).2 →
        u = 2 ∧ 1 ≤ p ∧ p ≤ 2)
    ∧ (fetch_all_restaurants lat lng radius_miles api).2.countP isDelayEvent =
        (fetch_all_restaurants lat lng radius_miles api).2.countP
          isLaterRequestEvent
    ∧ ∀ p ps, FetchEvent.request (p + 1) ps ∈
          (fetch_all_restaurants lat lng radius_miles api).2 →
        continues (api p) := by
  have main : ∀ rm : ℤ,
      (fetch_go api lat lng rm 3 0 none []).2.countP isRequestEvent ≤ 3
      ∧ (∀ u p, FetchEvent.delay u p ∈ (fetch_go api lat lng rm 3 0 none []).2 →
          u = 2 ∧ 1 ≤ p ∧ p ≤ 2)
      ∧ (fetch_go api lat lng rm 3 0 none []).2.countP isDelayEvent =
          (fetch_go api lat lng rm 3 0 none []).2.countP isLaterRequestEvent
      ∧ ∀ p ps, FetchEvent.request (p + 1) ps ∈
            (fetch_go api lat lng rm 3 0 none []).2 →
          continues (api p) := by
    intro rm
    refine ⟨fetch_go_countP_request_le api lat lng rm 3 0 none [], ?_,
      fetch_go_count_delay_later api lat lng rm 3 0 none [], ?_⟩
    · intro u p h
      have := fetch_go_mem_delay api lat lng rm 3 0 none [] u p h
      omega
    · intro p ps h
      rcases fetch_go_request_succ_continues api lat lng rm 3 0 none [] p ps h
        with heq | hc
      · omega
      · exact hc
  by_cases hcl : 50000 < miles_to_meters radius_miles
  · rw [fetch_all_clamped hcl]
    obtain ⟨m1, m2, m3, m4⟩ := main 50000
    refine ⟨?_, ?_, ?_, ?_⟩
    · simpa [List.countP_cons, isRequestEvent] using m1
    · intro u p h
      rcases List.mem_cons.mp h with h | h
      · simp at h
      · exact m2 u p h
    · simpa [List.countP_cons, isDelayEvent, isLaterRequestEvent] using m3
    · intro p ps h
      rcases List.mem_cons.mp h with h | h
      · simp at h
      · exact m4 p ps h
  · rw [fetch_all_unclamped hcl]
    exact main (miles_to_meters radius_miles)

/-- Witness for C4 at a concrete input: with an environment that always
returns a continuation token the trace contains the delayed requests for
pages 2 and 3, and each later request was preceded by a token. -/
theorem pagination_spec_witness :
    ((2 : ℕ) = 2 ∧ (1 : ℕ) ≤ 1 ∧ (1 : ℕ) ≤ 2)
    ∧ continues ((fun _ => FetchOutcome.ok ⟨"OK", [], some "tok", none⟩) 0) := by
  have hrm0 : miles_to_meters 0 = 0 := by
    rw [miles_to_meters, show (0 : ℚ) * (160934 / 100) = 0 by norm_num]
    rfl
  have htr : (fetch_all_restaurants 0 0 0
      (fun _ => FetchOutcome.ok ⟨"OK", [], some "tok", none⟩)).2 =
      [FetchEvent.request 0 ⟨some (0, 0), some 0, none⟩,
       FetchEvent.delay 2 1, FetchEvent.request 1 ⟨none, none, some "tok"⟩,
       FetchEvent.delay 2 2, FetchEvent.request 2 ⟨none, none, some "tok"⟩] := by
    rw [fetch_all_unclamped (by rw [hrm0]; decide), hrm0]
    decide
  have spec := pagination_spec 0 0 0
    (fun _ => FetchOutcome.ok ⟨"OK", [], some "tok", none⟩)
  refine ⟨spec.2.1 2 1 ?_, spec.2.2.2 0 ⟨none, none, some "tok"⟩ ?_⟩
  · rw [htr]; decide
  · rw [htr]; decide

/-- C5: on a transport failure or a non-success status at page `k` (all
earlier pages having succeeded with a token), the fetch loop halts
without raising: the run returns exactly the classifier-passing items of
the pages fetched so far, and the corresponding warning — including the
detail message when one is provided — is in the trace. -/
theorem fetch_failure_graceful (lat lng radius_miles : ℚ)
    (api : ℕ → FetchOutcome) (k : ℕ) (hk : k < 3)
    (hprev : ∀ j, j < k → continues (api j))
    (hfail : failWarn (api k) ≠ none) :
    (fetch_all_restaurants lat lng radius_miles api).1 =
      (List.range k).flatMap (fun j => pageYield (api j))
    ∧ ∀ w, failWarn (api k) = some w →
        w ∈ (fetch_all_restaurants lat lng radius_miles api).2 := by
  have main : ∀ rm : ℤ,
      (fetch_go api lat lng rm 3 0 none []).1 =
        (List.range k).flatMap (fun j => pageYield (api j))
      ∧ ∀ w, failWarn (api k) = some w →
          w ∈ (fetch_go api lat lng rm 3 0 none []).2 := by
    intro rm
    interval_cases k
    · obtain ⟨h1, h2⟩ := fetch_go_fail_step api lat lng rm 2 0 none [] hfail
      exact ⟨by simpa using h1, h2⟩
    · obtain ⟨d0, h0, hg0, ht0⟩ := hprev 0 (by omega)
      obtain ⟨h1, h2⟩ := fetch_go_fail_step api lat lng rm 1 1 d0.next_page_token
        ([] ++ d0.results.filter is_true_restaurant) hfail
      have res : (fetch_go api lat lng rm 3 0 none []).1 =
          [] ++ d0.results.filter is_true_restaurant := by
        rw [fetch_go_continue h0 hg0 ht0]
        exact h1
      have ev : ∀ w, failWarn (api 1) = some w →
          w ∈ (fetch_go api lat lng rm 3 0 none []).2 := by
        intro w hw
        rw [fetch_go_continue h0 hg0 ht0]
        exact List.mem_append_right _ (h2 w hw)
      refine ⟨?_, ev⟩
      rw [res]
      simp [pageYield, h0, hg0, List.range_succ]
    · obtain ⟨d0, h0, hg0, ht0⟩ := hprev 0 (by omega)
      obtain ⟨d1, h1c, hg1, ht1⟩ := hprev 1 (by omega)
      obtain ⟨h1, h2⟩ := fetch_go_fail_step api lat lng rm 0 2 d1.next_page_token
        (([] ++ d0.results.filter is_true_restaurant) ++
          d1.results.filter is_true_restaurant) hfail
      have res : (fetch_go api lat lng rm 3 0 none []).1 =
          ([] ++ d0.results.filter is_true_restaurant) ++
            d1.results.filter is_true_restaurant := by
        rw [fetch_go_continue h0 hg0 ht0, fetch_go_continue h1c hg1 ht1]
        exact h1
      have ev : ∀ w, failWarn (api 2) = some w →
          w ∈ (fetch_go api lat lng rm 3 0 none []).2 := by
        intro w hw
        rw [fetch_go_continue h0 hg0 ht0, fetch_go_continue h1c hg1 ht1]
        exact List.mem_append_right _ (List.mem_append_right _ (h2 w hw))
      refine ⟨?_, ev⟩
      rw [res]
      simp [pageYield, h0, hg0, h1c, hg1, List.range_succ]
  by_cases hcl : 50000 < miles_to_meters radius_miles
  · rw [fetch_all_clamped hcl]
    obtain ⟨m1, m2⟩ := main 50000
    exact ⟨m1, fun w hw => List.mem_cons_of_mem _ (m2 w hw)⟩
  · rw [fetch_all_unclamped hcl]
    exact main _

/-- Witness for C5 at a concrete input: an immediate transport failure on
page 1 yields the empty result list and the logged warning. -/
theorem fetch_failure_graceful_witness :
    (fetch_all_restaurants 0 0 20
        (fun _ => FetchOutcome.fail "connection refused")).1 =
      (List.range 0).flatMap
        (fun j => pageYield ((fun _ => FetchOutcome.fail "connection refused") j))
    ∧ ∀ w, failWarn ((fun _ => FetchOutcome.fail "connection refused") 0) =
          some w →
        w ∈ (fetch_all_restaurants 0 0 20
          (fun _ => FetchOutcome.fail "connection refused")).2 :=
  fetch_failure_graceful 0 0 20 (fun _ => FetchOutcome.fail "connection refused")
    0 (by omega) (fun j hj => absurd hj (Nat.not_lt_zero j)) (by simp [failWarn])

/-- C6 (amended): the radius is converted as the integer truncation of
`miles * 1609.34`; whenever the converted value exceeds 50000 meters the
page-1 request carries exactly 50000, the clamp notice is emitted exactly
once, and no other request carries a radius; otherwise the converted
value is sent unchanged and no notice is emitted. -/
theorem radius_conversion_and_clamp (lat lng miles : ℚ)
    (api : ℕ → FetchOutcome) :
    miles_to_meters miles = ratTrunc (miles * (160934 / 100))
    ∧ (50000 < miles_to_meters miles →
        (fetch_all_restaurants lat lng miles api).2.count
            FetchEvent.clampNote = 1
        ∧ ∃ ps, FetchEvent.request 0 ps ∈
              (fetch_all_restaurants lat lng miles api).2
            ∧ ps.radius = some 50000)
    ∧ (¬ 50000 < miles_to_meters miles →
        (fetch_all_restaurants lat lng miles api).2.count
            FetchEvent.clampNote = 0
        ∧ ∃ ps, FetchEvent.request 0 ps ∈
              (fetch_all_restaurants lat lng miles api).2
            ∧ ps.radius = some (miles_to_meters miles))
    ∧ ∀ p ps, FetchEvent.request p ps ∈
          (fetch_all_restaurants lat lng miles api).2 →
        1 ≤ p → ps.radius = none := by
  refine ⟨rfl, ?_, ?_, ?_⟩
  · intro h
    rw [fetch_all_clamped h]
    constructor
    · rw [List.count_cons_self]
      rw [List.count_eq_zero.mpr (fetch_go_clampNote_not_mem api lat lng
        50000 3 0 none [])]
    · refine ⟨requestParamsFor lat lng 50000 0 none, ?_, ?_⟩
      · exact List.mem_cons_of_mem _
          (fetch_go_head_request api lat lng 50000 3 0 none [] (by omega))
      · rfl
  · intro h
    rw [fetch_all_unclamped h]
    constructor
    · exact List.count_eq_zero.mpr (fetch_go_clampNote_not_mem api lat lng
        (miles_to_meters miles) 3 0 none [])
    · refine ⟨requestParamsFor lat lng (miles_to_meters miles) 0 none, ?_, ?_⟩
      · exact fetch_go_head_request api lat lng (miles_to_meters miles) 3 0
          none [] (by omega)
      · rfl
  · intro p ps h hp
    by_cases hcl : 50000 < miles_to_meters miles
    · rw [fetch_all_clamped hcl] at h
      rcases List.mem_cons.mp h with h | h
      · simp at h
      · exact fetch_go_later_radius_none api lat lng 50000 3 0 none [] p ps h hp
    · rw [fetch_all_unclamped hcl] at h
      exact fetch_go_later_radius_none api lat lng (miles_to_meters miles)
        3 0 none [] p ps h hp

/-- Witness for C6 (amended) at a concrete input: 32 miles converts to
51498 meters, which is clamped to 50000 with one notice. -/
theorem radius_conversion_and_clamp_witness :
    (fetch_all_restaurants 0 0 32 (fun _ => FetchOutcome.fail "e")).2.count
        FetchEvent.clampNote = 1
    ∧ ∃ ps, FetchEvent.request 0 ps ∈
          (fetch_all_restaurants 0 0 32 (fun _ => FetchOutcome.fail "e")).2
        ∧ ps.radius = some 50000 := by
  have hm : miles_to_meters 32 = 51498 := by
    rw [miles_to_meters, ratTrunc, if_pos (by norm_num)]
    rw [Int.floor_eq_iff]
    norm_num
  exact (radius_conversion_and_clamp 0 0 32 (fun _ => FetchOutcome.fail "e")).2.1
    (by rw [hm]; norm_num)

/-- C6 counterexample: the radius 31.05 miles exceeds 31 miles (and its
conversion 49970 exceeds the 49889 meters that 31 miles converts to), yet
the request goes out unclamped with radius 49970 and no clamp notice is
emitted — the actual clamp threshold is a converted value above 50000
meters, not 31 miles. -/
theorem radius_claim_counterexample :
    (31 : ℚ) < 621 / 20
    ∧ miles_to_meters 31 = 49889
    ∧ miles_to_meters (621 / 20) = 49970
    ∧ (fetch_all_restaurants 0 0 (621 / 20)
        (fun _ => FetchOutcome.fail "e")).2.count FetchEvent.clampNote = 0
    ∧ ∃ ps, FetchEvent.request 0 ps ∈
          (fetch_all_restaurants 0 0 (621 / 20)
            (fun _ => FetchOutcome.fail "e")).2
        ∧ ps.radius = some 49970 ∧ ps.radius ≠ some 50000 := by
  have h31 : miles_to_meters 31 = 49889 := by
    rw [miles_to_meters, ratTrunc, if_pos (by norm_num)]
    rw [Int.floor_eq_iff]
    norm_num
  have hm : miles_to_meters (621 / 20) = 49970 := by
    rw [miles_to_meters, ratTrunc, if_pos (by norm_num)]
    rw [Int.floor_eq_iff]
    norm_num
  have hnc : ¬ 50000 < miles_to_meters (621 / 20) := by
    rw [hm]; norm_num
  refine ⟨by norm_num, h31, hm, ?_, ?_⟩
  · rw [fetch_all_unclamped hnc]
    exact List.count_eq_zero.mpr (fetch_go_clampNote_not_mem _ 0 0
      (miles_to_meters (621 / 20)) 3 0 none [])
  · refine ⟨requestParamsFor 0 0 (miles_to_meters (621 / 20)) 0 none, ?_, ?_, ?_⟩
    · rw [fetch_all_unclamped hnc]
      exact fetch_go_head_request _ 0 0 (miles_to_meters (621 / 20)) 3 0
        none [] (by omega)
    · show some (miles_to_meters (621 / 20)) = some 49970
      rw [hm]
    · show some (miles_to_meters (621 / 20)) ≠ some 50000
      rw [hm]
      decide

/-- C7: whenever the ranked list handed to the presenter is empty the
output is the header followed by the guidance block — reviews halved by
floor division, rating reduced by 0.2 floored at 3.0, radius increased by
10 capped at 31 — and nothing else (the presenter has no error exit);
moreover an immediate transport failure on page 1 yields an empty ranked
list. -/
theorem empty_guidance_spec (restaurants : List Place) (location_name : String)
    (radius_miles min_rating : ℚ) (min_reviews : ℤ) (total_fetched : ℕ)
    (show_types : Bool) (max_display : ℕ) (h : restaurants = []) :
    display_results restaurants location_name radius_miles min_rating
        min_reviews total_fetched show_types max_display =
      [.headerLocation location_name, .headerRadius radius_miles,
       .headerFilters min_rating min_reviews,
       .headerCounts total_fetched 0, .separator, .noResults, .tryAdjusting,
       .suggestReviews (Int.fdiv min_reviews 2),
       .suggestRating (max (min_rating - 2 / 10) 3),
       .suggestRadius (min (radius_miles + 10) 31)]
    ∧ ∀ (lat lng mr : ℚ) (mv : ℤ) (api : ℕ → FetchOutcome) (msg : String),
        api 0 = .fail msg →
        filter_and_rank_restaurants
          (fetch_all_restaurants lat lng radius_miles api).1 mr mv = [] := by
  constructor
  · subst h
    simp [display_results]
  · intro lat lng mr mv api msg hapi
    have hres : (fetch_all_restaurants lat lng radius_miles api).1 = [] := by
      by_cases hcl : 50000 < miles_to_meters radius_miles
      · rw [fetch_all_clamped hcl, fetch_go_fail hapi]
      · rw [fetch_all_unclamped hcl, fetch_go_fail hapi]
    rw [hres]
    rfl

/-- Witness for C7 at a concrete input: empty ranked list, default-like
filter values. -/
theorem empty_guidance_spec_witness :
    display_results [] "Seattle" 20 (47 / 10) 300 0 false 20 =
      [.headerLocation "Seattle", .headerRadius 20,
       .headerFilters (47 / 10) 300, .headerCounts 0 0, .separator,
       .noResults, .tryAdjusting, .suggestReviews (Int.fdiv 300 2),
       .suggestRating (max ((47 : ℚ) / 10 - 2 / 10) 3),
       .suggestRadius (min ((20 : ℚ) + 10) 31)] :=
  (empty_guidance_spec [] "Seattle" 20 (47 / 10) 300 0 false 20 rfl).1

/-- C8: the geocoder accepts a coordinate string only when it splits on
commas into exactly two tokens that both parse as numbers within
[-90, 90] × [-180, 180]; `"200,50"` is rejected for range and
`"47.6,-122.3,extra"` for token count. -/
theorem coordinate_parsing_spec :
    (∀ (city : Option String) (c : String) (lat lng : ℚ) (lbl : LocLabel),
        c ≠ "" → get_location city (some c) = .ok (lat, lng, lbl) →
        ∃ a b, splitChars ',' c.toList = [a, b]
          ∧ parseDecimal (trimChars a) = some lat
          ∧ parseDecimal (trimChars b) = some lng
          ∧ -90 ≤ lat ∧ lat ≤ 90 ∧ -180 ≤ lng ∧ lng ≤ 180)
    ∧ get_location none (some "200,50") = .error (.invalidCoords .outOfRange)
    ∧ get_location none (some "47.6,-122.3,extra") =
        .error (.invalidCoords .badFormat) := by
  refine ⟨?_, by decide, by decide⟩
  intro city c lat lng lbl hc h
  have htr : strTruthy (some c) = true := by
    simp [strTruthy, bne_iff_ne]
    exact hc
  rw [get_location, if_pos htr] at h
  simp only [Option.getD_some] at h
  rcases hsp : splitChars ',' c.toList with _ | ⟨a, rest⟩
  · rw [hsp] at h
    simp at h
  rcases rest with _ | ⟨b, rest2⟩
  · rw [hsp] at h
    simp at h
  rcases rest2 with _ | ⟨x, xs⟩
  · rw [hsp] at h
    dsimp only at h
    rcases hpa : parseDecimal (trimChars a) with _ | la
    · rw [hpa] at h
      simp at h
    rcases hpb : parseDecimal (trimChars b) with _ | lb
    · rw [hpa, hpb] at h
      simp at h
    rw [hpa, hpb] at h
    dsimp only at h
    by_cases hcond : ((-90 ≤ la ∧ la ≤ 90) ∧ (-180 ≤ lb ∧ lb ≤ 180))
    · rw [if_pos hcond] at h
      simp only [Except.ok.injEq, Prod.mk.injEq] at h
      obtain ⟨h1, h2, _⟩ := h
      subst h1
      subst h2
      exact ⟨a, b, rfl, hpa, hpb, hcond.1.1, hcond.1.2, hcond.2.1, hcond.2.2⟩
    · rw [if_neg hcond] at h
      simp at h
  · rw [hsp] at h
    simp at h

/-- Witness for C8 at a concrete input: the accepted string
`"47.6,-122.3"` splits into two in-range numeric tokens. -/
theorem coordinate_parsing_spec_witness :
    ∃ a b, splitChars ',' "47.6,-122.3".toList = [a, b]
      ∧ parseDecimal (trimChars a) = some (238 / 5)
      ∧ parseDecimal (trimChars b) = some (-1223 / 10)
      ∧ -90 ≤ (238 / 5 : ℚ) ∧ (238 / 5 : ℚ) ≤ 90
      ∧ -180 ≤ (-1223 / 10 : ℚ) ∧ (-1223 / 10 : ℚ) ≤ 180 := by
  refine coordinate_parsing_spec.1 none "47.6,-122.3" (238 / 5) (-1223 / 10)
    (.coordsLabel (238 / 5) (-1223 / 10)) (by decide) ?_
  simp [get_location, strTruthy, splitChars, trimChars, parseDecimal, digitsVal]
  norm_num

/-- C9: a city name absent from the known-city table (after lowering) is
rejected with the full sorted list of known city names attached, and with
neither city nor coordinates the fixed Seattle default is returned. -/
theorem unknown_city_spec :
    (∀ city : String, city ≠ "" →
        CITY_COORDINATES.lookup (strLower city) = none →
        get_location (some city) none =
          .error (.unknownCity city available_cities))
    ∧ available_cities =
        ["atlanta", "austin", "boston", "chicago", "dallas", "denver",
         "houston", "las vegas", "los angeles", "miami", "nashville",
         "new orleans", "new york", "philadelphia", "phoenix", "portland",
         "san diego", "san francisco", "seattle", "washington dc"]
    ∧ List.Sorted strLe available_cities
    ∧ List.Perm available_cities city_names
    ∧ get_location none none =
        .ok (476062 / 10000, -1223321 / 10000, .seattleDefault) := by
  refine ⟨?_, by decide, by decide,
    List.perm_insertionSort strLe city_names, by rfl⟩
  intro city hcity hlook
  have ht2 : strTruthy (some city) = true := by
    simp [strTruthy, bne_iff_ne]
    exact hcity
  rw [get_location, if_neg (by decide), if_pos ht2]
  simp only [Option.getD_some]
  rw [hlook]

/-- Witness for C9 at a concrete input: the unknown city `"Atlantis"`. -/
theorem unknown_city_spec_witness :
    get_location (some "Atlantis") none =
      .error (.unknownCity "Atlantis" available_cities) :=
  unknown_city_spec.1 "Atlantis" (by decide) (by decide)

end RestaurantFinder
